import Mathlib

/-!
Shallow embedding of the option-construction and placement-resolution layer
of `libnotcurses-sys` (files `src/notcurses.rs` and
`src/visual/options/builder.rs`), together with theorems settling the
specification claims about it.

Conventions of the embedding:
* Rust `i32` values are modelled as `Int` (the inputs relevant to the claims
  never overflow, since the alignment arithmetic only runs on operands that
  are already in range);
* Rust `u32` values (`NcAlign`, `NcDim`, `NcRgba`, `NcScale`, `NcBlitter`,
  the packed `flags` field) are modelled as `Nat`; the bitwise operations
  `|=` and `&= !F` become `|||` and `&&& (0xFFFFFFFF ^^^ F)`;
* a Rust `&mut NcPlane` reference is modelled as an opaque numeric
  identifier (`Nat`);
* the fallible/UB-capable `char::from_u32_unchecked` decode is modelled as
  an `Option Char`, `none` standing for the undefined-behaviour branch.
-/

/-- Modelled from the spec: the `NcAlign` constants are bindgen re-exports
declared outside `src/`; the spec's AlignmentMode is the tagged value
left/center/right (plus an unaligned value outside the three documented
modes).  The concrete numbers below follow the upstream `ncalign_e`
enumeration; the claims depend only on the constants being distinct. -/
def NCALIGN_UNALIGNED : Nat := 0

/-- Modelled from the spec: the left/top-anchored alignment mode. -/
def NCALIGN_LEFT : Nat := 1

/-- Modelled from the spec: the centered alignment mode. -/
def NCALIGN_CENTER : Nat := 2

/-- Modelled from the spec: the right/bottom-anchored alignment mode. -/
def NCALIGN_RIGHT : Nat := 3

/-- Embedding of `notcurses_align` (src/notcurses.rs:64-75): return the
offset into `availcols` at which `cols` ought be output given the
requirements of `align`.  Rust's `/` on `i32` truncates toward zero, which
is `Int.tdiv`. -/
def notcurses_align (availcols : Int) (align : Nat) (cols : Int) : Int :=
  if align = NCALIGN_LEFT then 0
  else if cols > availcols then 0
  else if align = NCALIGN_CENTER then (availcols - cols).tdiv 2
  else availcols - cols

namespace NcVisualOptions

/-- Modelled from the spec: the `NcVisualOptions` flag constants are declared
outside `src/`; the spec describes `flags` as a bit-set of independent
booleans, so each constant is a distinct single bit.  The concrete values
follow the upstream `NCVISUAL_OPTION_*` constants. -/
def NODEGRADE : Nat := 1

/-- Modelled from the spec: blend-compositing flag bit. -/
def BLEND : Nat := 2

/-- Modelled from the spec: horizontal-aligned flag bit. -/
def HORALIGNED : Nat := 4

/-- Modelled from the spec: vertical-aligned flag bit. -/
def VERALIGNED : Nat := 8

/-- Modelled from the spec: alpha-from-transcolor flag bit. -/
def ADDALPHA : Nat := 16

/-- Modelled from the spec: child-plane-creation flag bit. -/
def CHILDPLANE : Nat := 32

/-- Modelled from the spec: no-interpolation flag bit. -/
def NOINTERPOLATE : Nat := 64

end NcVisualOptions

/-- Bitwise complement of a `u32` flag constant, as used by the Rust
`self.flags &= !FLAG` operations: `!F` on `u32` is `0xFFFFFFFF ^^^ F`. -/
def clearMask (f : Nat) : Nat := 4294967295 ^^^ f

/-- The Rust `as i32` cast of a `u32` value (used by `valign`/`halign`/
`align`, which store an `NcAlign` into the `NcOffset` slot). -/
def u32_as_i32 (n : Nat) : Int :=
  if n < 2147483648 then (n : Int) else (n : Int) - 4294967296

/-- Embedding of the `NcVisualOptionsBuilder` state
(src/visual/options/builder.rs:13-23). -/
structure NcVisualOptionsBuilder where
  plane : Option Nat
  scale : Nat
  y : Int
  x : Int
  region_yx_lenyx : Option (Nat × Nat × Nat × Nat)
  cell_offset_yx : Option (Nat × Nat)
  blitter : Nat
  flags : Nat
  transcolor : Nat
deriving DecidableEq, Repr

/-- The `#[derive(Default)]` builder state: no plane, zero scale/offsets/
blitter/flags/transcolor, no region, no cell offset. -/
def NcVisualOptionsBuilder.default : NcVisualOptionsBuilder :=
  ⟨none, 0, 0, 0, none, none, 0, 0, 0⟩

/-- The finished descriptor.  Modelled from the spec: `NcVisualOptions::new`
is declared outside `src/`; per the spec (§3, §4.1) the finalize step packs
the builder fields unchanged into the immutable descriptor. -/
structure NcVisualOptions where
  n_plane : Option Nat
  scaling : Nat
  y : Int
  x : Int
  region_yx_lenyx : Option (Nat × Nat × Nat × Nat)
  cell_offset_yx : Option (Nat × Nat)
  blitter : Nat
  flags : Nat
  transcolor : Nat
deriving DecidableEq, Repr

/-- Modelled from the spec (§3 data model): the descriptor's
`transparent_color` is an optional color whose presence is tied to the
alpha flag (`flags.alpha_from_transcolor` is true iff `transparent_color`
is `Some`); the packed representation carries the color in the `transcolor`
slot and the presence bit in `ADDALPHA`. -/
def NcVisualOptions.transparentColor (o : NcVisualOptions) : Option Nat :=
  if o.flags &&& NcVisualOptions.ADDALPHA ≠ 0 then some o.transcolor else none

namespace Builder

open NcVisualOptions in
/-- Embedding of `NcVisualOptionsBuilder::plane`
(src/visual/options/builder.rs:42-45). -/
def plane (b : NcVisualOptionsBuilder) (p : Nat) : NcVisualOptionsBuilder :=
  { b with plane := some p }

/-- Embedding of `NcVisualOptionsBuilder::child`
(src/visual/options/builder.rs:62-69). -/
def child (b : NcVisualOptionsBuilder) (c : Bool) : NcVisualOptionsBuilder :=
  if c then { b with flags := b.flags ||| NcVisualOptions.CHILDPLANE }
  else { b with flags := b.flags &&& clearMask NcVisualOptions.CHILDPLANE }

/-- Embedding of `NcVisualOptionsBuilder::parent`
(src/visual/options/builder.rs:80-84). -/
def parent (b : NcVisualOptionsBuilder) (p : Nat) : NcVisualOptionsBuilder :=
  { b with plane := some p, flags := b.flags ||| NcVisualOptions.CHILDPLANE }

/-- Embedding of `NcVisualOptionsBuilder::no_plane`
(src/visual/options/builder.rs:93-97). -/
def no_plane (b : NcVisualOptionsBuilder) : NcVisualOptionsBuilder :=
  { b with plane := none, flags := b.flags &&& clearMask NcVisualOptions.CHILDPLANE }

/-- Embedding of `NcVisualOptionsBuilder::scale`
(src/visual/options/builder.rs:102-105). -/
def scale (b : NcVisualOptionsBuilder) (s : Nat) : NcVisualOptionsBuilder :=
  { b with scale := s }

/-- Embedding of `NcVisualOptionsBuilder::y`
(src/visual/options/builder.rs:114-118). -/
def y (b : NcVisualOptionsBuilder) (v : Int) : NcVisualOptionsBuilder :=
  { b with y := v, flags := b.flags &&& clearMask NcVisualOptions.VERALIGNED }

/-- Embedding of `NcVisualOptionsBuilder::x`
(src/visual/options/builder.rs:127-131). -/
def x (b : NcVisualOptionsBuilder) (v : Int) : NcVisualOptionsBuilder :=
  { b with x := v, flags := b.flags &&& clearMask NcVisualOptions.HORALIGNED }

/-- Embedding of `NcVisualOptionsBuilder::yx`
(src/visual/options/builder.rs:142-148). -/
def yx (b : NcVisualOptionsBuilder) (vy vx : Int) : NcVisualOptionsBuilder :=
  { b with
    y := vy
    x := vx
    flags := (b.flags &&& clearMask NcVisualOptions.VERALIGNED) &&&
      clearMask NcVisualOptions.HORALIGNED }

/-- Embedding of `NcVisualOptionsBuilder::valign`
(src/visual/options/builder.rs:158-162). -/
def valign (b : NcVisualOptionsBuilder) (a : Nat) : NcVisualOptionsBuilder :=
  { b with y := u32_as_i32 a, flags := b.flags ||| NcVisualOptions.VERALIGNED }

/-- Embedding of `NcVisualOptionsBuilder::halign`
(src/visual/options/builder.rs:172-176). -/
def halign (b : NcVisualOptionsBuilder) (a : Nat) : NcVisualOptionsBuilder :=
  { b with x := u32_as_i32 a, flags := b.flags ||| NcVisualOptions.HORALIGNED }

/-- Embedding of `NcVisualOptionsBuilder::align`
(src/visual/options/builder.rs:187-193). -/
def align (b : NcVisualOptionsBuilder) (va ha : Nat) : NcVisualOptionsBuilder :=
  { b with
    y := u32_as_i32 va
    x := u32_as_i32 ha
    flags := (b.flags ||| NcVisualOptions.VERALIGNED) |||
      NcVisualOptions.HORALIGNED }

/-- Embedding of `NcVisualOptionsBuilder::blitter`
(src/visual/options/builder.rs:200-203). -/
def blitter (b : NcVisualOptionsBuilder) (v : Nat) : NcVisualOptionsBuilder :=
  { b with blitter := v }

/-- Modelled from the spec: `NcBlitter::PIXEL` is a constant declared
outside `src/`; the claims depend on no particular value. -/
def PIXEL : Nat := 7

/-- Embedding of `NcVisualOptionsBuilder::pixel`
(src/visual/options/builder.rs:208-211). -/
def pixel (b : NcVisualOptionsBuilder) : NcVisualOptionsBuilder :=
  { b with blitter := PIXEL }

/-- Embedding of `NcVisualOptionsBuilder::transcolor`
(src/visual/options/builder.rs:220-228).  `Some color` stores the color and
sets `ADDALPHA`; `None` clears the `ADDALPHA` flag (the stored color slot is
left as it was). -/
def transcolor (b : NcVisualOptionsBuilder) (color : Option Nat) : NcVisualOptionsBuilder :=
  match color with
  | some c => { b with transcolor := c, flags := b.flags ||| NcVisualOptions.ADDALPHA }
  | none => { b with flags := b.flags &&& clearMask NcVisualOptions.ADDALPHA }

/-- Embedding of `NcVisualOptionsBuilder::blend`
(src/visual/options/builder.rs:241-248). -/
def blend (b : NcVisualOptionsBuilder) (v : Bool) : NcVisualOptionsBuilder :=
  if v then { b with flags := b.flags ||| NcVisualOptions.BLEND }
  else { b with flags := b.flags &&& clearMask NcVisualOptions.BLEND }

/-- Embedding of `NcVisualOptionsBuilder::degrade`
(src/visual/options/builder.rs:261-268): `true` clears the `NODEGRADE`
bit, `false` sets it. -/
def degrade (b : NcVisualOptionsBuilder) (v : Bool) : NcVisualOptionsBuilder :=
  if v then { b with flags := b.flags &&& clearMask NcVisualOptions.NODEGRADE }
  else { b with flags := b.flags ||| NcVisualOptions.NODEGRADE }

/-- Embedding of `NcVisualOptionsBuilder::interpolate`
(src/visual/options/builder.rs:274-281): `true` clears the `NOINTERPOLATE`
bit, `false` sets it. -/
def interpolate (b : NcVisualOptionsBuilder) (v : Bool) : NcVisualOptionsBuilder :=
  if v then { b with flags := b.flags &&& clearMask NcVisualOptions.NOINTERPOLATE }
  else { b with flags := b.flags ||| NcVisualOptions.NOINTERPOLATE }

/-- Embedding of `NcVisualOptionsBuilder::region`
(src/visual/options/builder.rs:286-289). -/
def region (b : NcVisualOptionsBuilder) (beg_y beg_x len_y len_x : Nat) :
    NcVisualOptionsBuilder :=
  { b with region_yx_lenyx := some (beg_y, beg_x, len_y, len_x) }

/-- Embedding of `NcVisualOptionsBuilder::cell_offset`
(src/visual/options/builder.rs:294-297). -/
def cell_offset (b : NcVisualOptionsBuilder) (cy cx : Nat) : NcVisualOptionsBuilder :=
  { b with cell_offset_yx := some (cy, cx) }

/-- Embedding of `NcVisualOptionsBuilder::build`
(src/visual/options/builder.rs:300-312), composed with the spec-modelled
`NcVisualOptions::new`: the builder fields are packed unchanged into the
descriptor. -/
def build (b : NcVisualOptionsBuilder) : NcVisualOptions :=
  ⟨b.plane, b.scale, b.y, b.x, b.region_yx_lenyx, b.cell_offset_yx,
   b.blitter, b.flags, b.transcolor⟩

end Builder

/-- Embedding of the `timespec` value built by `notcurses_getc_nblock`
(src/notcurses.rs:84-87). -/
structure timespec where
  tv_sec : Int
  tv_nsec : Int
deriving DecidableEq, Repr

/-- Modelled from the spec: a `sigset_t` is the `__val: [u64; 16]` word
array; `sigfillset` (all signals blocked) sets every word to all-ones. -/
def sigfillset_mask : List Nat := List.replicate 16 (2 ^ 64 - 1)

/-- Modelled from the spec: `sigemptyset` (no signals blocked) sets every
word of the `sigset_t` to zero. -/
def sigemptyset_mask : List Nat := List.replicate 16 0

/-- The argument record handed to the underlying wait primitive
`nc::notcurses_getc`: an optional timeout (`none` models the `NULL`
pointer, i.e. an unbounded wait) and the signal mask. -/
structure GetcArgs where
  timeout : Option timespec
  sigmask : List Nat
deriving DecidableEq

/-- Embedding of `core::char::from_u32_unchecked`: `none` models the
undefined-behaviour branch taken when the raw value is not a valid
Unicode scalar. -/
def char_from_u32_unchecked (n : Nat) : Option Char :=
  if n.isValidChar then some (Char.ofNat n) else none

/-- Embedding of `notcurses_getc_nblock` (src/notcurses.rs:80-90),
parametrised by the underlying wait primitive `getc` (an external FFI
call): a zero-duration timeout and a completely filled signal mask are
passed, and the returned raw code point is decoded unchecked. -/
def notcurses_getc_nblock (getc : GetcArgs → Nat) : Option Char :=
  char_from_u32_unchecked (getc ⟨some ⟨0, 0⟩, sigfillset_mask⟩)

/-- Embedding of `notcurses_getc_nblocking` (src/notcurses.rs:95-101),
parametrised by the underlying wait primitive `getc`: a `NULL` timeout
(unbounded wait) and an empty signal mask are passed, and the returned raw
code point is decoded unchecked. -/
def notcurses_getc_nblocking (getc : GetcArgs → Nat) : Option Char :=
  char_from_u32_unchecked (getc ⟨none, sigemptyset_mask⟩)

/-- One fluent setter call of `NcVisualOptionsBuilder`, with its argument
value. -/
inductive BCall where
  | plane (p : Nat)
  | child (c : Bool)
  | parent (p : Nat)
  | no_plane
  | scale (s : Nat)
  | y (v : Int)
  | x (v : Int)
  | yx (vy vx : Int)
  | valign (a : Nat)
  | halign (a : Nat)
  | align (va ha : Nat)
  | blitter (v : Nat)
  | pixel
  | transcolor (c : Option Nat)
  | blend (v : Bool)
  | degrade (v : Bool)
  | interpolate (v : Bool)
  | region (a b c d : Nat)
  | cell_offset (cy cx : Nat)
deriving DecidableEq, Repr

/-- Apply one setter call to a builder state. -/
def applyCall (b : NcVisualOptionsBuilder) : BCall → NcVisualOptionsBuilder
  | .plane p => Builder.plane b p
  | .child c => Builder.child b c
  | .parent p => Builder.parent b p
  | .no_plane => Builder.no_plane b
  | .scale s => Builder.scale b s
  | .y v => Builder.y b v
  | .x v => Builder.x b v
  | .yx vy vx => Builder.yx b vy vx
  | .valign a => Builder.valign b a
  | .halign a => Builder.halign b a
  | .align va ha => Builder.align b va ha
  | .blitter v => Builder.blitter b v
  | .pixel => Builder.pixel b
  | .transcolor c => Builder.transcolor b c
  | .blend v => Builder.blend b v
  | .degrade v => Builder.degrade b v
  | .interpolate v => Builder.interpolate b v
  | .region a bx c d => Builder.region b a bx c d
  | .cell_offset cy cx => Builder.cell_offset b cy cx

/-- Whether a call affects the vertical placement axis
(`y`, `yx`, `valign` or `align`). -/
def isVertCall : BCall → Bool
  | .y _ | .yx _ _ | .valign _ | .align _ _ => true
  | _ => false

/-- Whether a call affects the horizontal placement axis
(`x`, `yx`, `halign` or `align`). -/
def isHorCall : BCall → Bool
  | .x _ | .yx _ _ | .halign _ | .align _ _ => true
  | _ => false

/-- The alignment mode a call stores into the vertical slot, when it is a
vertical alignment call. -/
def vertAlignOf : BCall → Option Nat
  | .valign a => some a
  | .align va _ => some va
  | _ => none

/-- The alignment mode a call stores into the horizontal slot, when it is a
horizontal alignment call. -/
def horAlignOf : BCall → Option Nat
  | .halign a => some a
  | .align _ ha => some ha
  | _ => none

/-- Whether a call is a vertical alignment call (`valign` or `align`). -/
def isVertAlign (c : BCall) : Bool := (vertAlignOf c).isSome

/-- Whether a call is a horizontal alignment call (`halign` or `align`). -/
def isHorAlign (c : BCall) : Bool := (horAlignOf c).isSome

/-- The most recent vertical-axis-affecting call of a sequence, if any. -/
def lastVert (cs : List BCall) : Option BCall := cs.reverse.find? isVertCall

/-- The most recent horizontal-axis-affecting call of a sequence, if any. -/
def lastHor (cs : List BCall) : Option BCall := cs.reverse.find? isHorCall

/-- The builder state reached by applying a sequence of setter calls to the
default builder. -/
def buildSeq (cs : List BCall) : NcVisualOptionsBuilder :=
  cs.foldl applyCall NcVisualOptionsBuilder.default

/-- C1: for every available extent `avail ≥ 0` and length `len ≥ 0`, the
alignment resolver returns `0` for the left/top-anchored mode; returns `0`
whenever `len > avail`, regardless of mode; returns `(avail - len) / 2`
with floor division for the centered mode when `len ≤ avail`; and returns
`avail - len` for the right/bottom-anchored mode when `len ≤ avail`.  In
particular `notcurses_align 80 NCALIGN_CENTER 10 = 35`,
`notcurses_align 80 NCALIGN_CENTER 11 = 34` and
`notcurses_align 10 NCALIGN_RIGHT 20 = 0`. -/
theorem C1_notcurses_align_spec (avail len : Int) (_ha : 0 ≤ avail) (_hl : 0 ≤ len) :
    notcurses_align avail NCALIGN_LEFT len = 0 ∧
    (∀ a : Nat, avail < len → notcurses_align avail a len = 0) ∧
    (len ≤ avail → notcurses_align avail NCALIGN_CENTER len = (avail - len) / 2) ∧
    (len ≤ avail → notcurses_align avail NCALIGN_RIGHT len = avail - len) ∧
    notcurses_align 80 NCALIGN_CENTER 10 = 35 ∧
    notcurses_align 80 NCALIGN_CENTER 11 = 34 ∧
    notcurses_align 10 NCALIGN_RIGHT 20 = 0 := by
  refine ⟨?_, ?_, ?_, ?_, by decide, by decide, by decide⟩
  · simp [notcurses_align]
  · intro a hlt
    by_cases hL : a = NCALIGN_LEFT
    · simp [notcurses_align, hL]
    · simp [notcurses_align, hL, hlt]
  · intro hle
    have hsub : (0 : Int) ≤ avail - len := by omega
    have h1 : notcurses_align avail NCALIGN_CENTER len = (avail - len).tdiv 2 := by
      simp [notcurses_align, NCALIGN_CENTER, NCALIGN_LEFT, not_lt.mpr hle]
    rw [h1, Int.tdiv_eq_ediv hsub (by norm_num)]
  · intro hle
    simp [notcurses_align, NCALIGN_RIGHT, NCALIGN_LEFT, NCALIGN_CENTER,
      not_lt.mpr hle]

/-- Witness for C1 at `avail = 80`, `len = 11`: the hypotheses hold and the
centered conjunct evaluates to `34`. -/
theorem C1_witness :
    notcurses_align 80 NCALIGN_CENTER 11 = (80 - 11 : Int) / 2 :=
  (C1_notcurses_align_spec 80 11 (by decide) (by decide)).2.2.1 (by decide)

/-- C10: for every alignment mode that is neither the left/top-anchored
mode nor the centered mode — including values outside the three documented
modes, such as the unaligned value — and every `0 ≤ len ≤ avail`, the
resolver falls through to the right/bottom-anchored computation
`avail - len`. -/
theorem C10_notcurses_align_fallthrough (avail len : Int) (a : Nat)
    (_hl : 0 ≤ len) (hle : len ≤ avail)
    (hL : a ≠ NCALIGN_LEFT) (hC : a ≠ NCALIGN_CENTER) :
    notcurses_align avail a len = avail - len := by
  simp [notcurses_align, hL, hC, not_lt.mpr hle]

/-- Witness for C10 at `avail = 10`, `len = 4`, mode `NCALIGN_UNALIGNED`:
the result is `6`. -/
theorem C10_witness : notcurses_align 10 NCALIGN_UNALIGNED 4 = 10 - 4 :=
  C10_notcurses_align_fallthrough 10 4 NCALIGN_UNALIGNED (by decide) (by decide)
    (by decide) (by decide)

theorem allOnes32_testBit : ∀ i, i < 32 → Nat.testBit 4294967295 i = true := by
  decide

theorem clearMask_testBit (f i : Nat) (hi : i < 32) :
    (clearMask f).testBit i = !f.testBit i := by
  simp [clearMask, Nat.testBit_xor, allOnes32_testBit i hi]

theorem lor_testBit_true (px f i : Nat) (h : f.testBit i = true) :
    (px ||| f).testBit i = true := by
  simp [Nat.testBit_lor, h]

theorem lor_testBit_other (px f i : Nat) (h : f.testBit i = false) :
    (px ||| f).testBit i = px.testBit i := by
  simp [Nat.testBit_lor, h]

theorem land_clearMask_testBit_true (px f i : Nat) (hi : i < 32)
    (h : f.testBit i = true) : (px &&& clearMask f).testBit i = false := by
  simp [Nat.testBit_land, clearMask_testBit f i hi, h]

theorem land_clearMask_testBit_other (px f i : Nat) (hi : i < 32)
    (h : f.testBit i = false) : (px &&& clearMask f).testBit i = px.testBit i := by
  simp [Nat.testBit_land, clearMask_testBit f i hi, h]

theorem land_two_pow_ne_zero_iff (px i : Nat) :
    (px &&& 2 ^ i ≠ 0) ↔ px.testBit i = true := by
  rw [Nat.and_two_pow]
  cases h : px.testBit i <;> simp [h]

theorem land16_eq_zero_iff (px : Nat) :
    (px &&& 16 = 0) ↔ px.testBit 4 = false := by
  have h : (16 : Nat) = 2 ^ 4 := by norm_num
  rw [h, Nat.and_two_pow]
  cases hb : px.testBit 4 <;> simp [hb]

/-- C4: `degrade true` leaves the `NODEGRADE` bit (bit 0) clear and
`degrade false` sets it; independently and with the same inversion,
`interpolate true` leaves the `NOINTERPOLATE` bit (bit 6) clear and
`interpolate false` sets it; neither setter touches the other's bit. -/
theorem C4_degrade_interpolate_inversion (b : NcVisualOptionsBuilder) :
    ((Builder.degrade b true).flags.testBit 0 = false) ∧
    ((Builder.degrade b false).flags.testBit 0 = true) ∧
    ((Builder.interpolate b true).flags.testBit 6 = false) ∧
    ((Builder.interpolate b false).flags.testBit 6 = true) ∧
    (∀ v : Bool, (Builder.degrade b v).flags.testBit 6 = b.flags.testBit 6) ∧
    (∀ v : Bool, (Builder.interpolate b v).flags.testBit 0 = b.flags.testBit 0) := by
  refine ⟨?_, ?_, ?_, ?_, fun v => ?_, fun v => ?_⟩
  · simpa [Builder.degrade] using
      land_clearMask_testBit_true b.flags NcVisualOptions.NODEGRADE 0
        (by norm_num) (by decide)
  · simpa [Builder.degrade] using
      lor_testBit_true b.flags NcVisualOptions.NODEGRADE 0 (by decide)
  · simpa [Builder.interpolate] using
      land_clearMask_testBit_true b.flags NcVisualOptions.NOINTERPOLATE 6
        (by norm_num) (by decide)
  · simpa [Builder.interpolate] using
      lor_testBit_true b.flags NcVisualOptions.NOINTERPOLATE 6 (by decide)
  · cases v
    · simpa [Builder.degrade] using
        lor_testBit_other b.flags NcVisualOptions.NODEGRADE 6 (by decide)
    · simpa [Builder.degrade] using
        land_clearMask_testBit_other b.flags NcVisualOptions.NODEGRADE 6
          (by norm_num) (by decide)
  · cases v
    · simpa [Builder.interpolate] using
        lor_testBit_other b.flags NcVisualOptions.NOINTERPOLATE 0 (by decide)
    · simpa [Builder.interpolate] using
        land_clearMask_testBit_other b.flags NcVisualOptions.NOINTERPOLATE 0
          (by norm_num) (by decide)

/-- C3: for every color `c` and builder state `b`, `transcolor (some c)`
followed by `build` yields a descriptor with the `ADDALPHA` flag set
(bit 4) and transparent color `some c`; a subsequent `transcolor none`
clears both, so the resulting descriptor has no transparent color and the
alpha flag clear. -/
theorem C3_transcolor_coupling (b : NcVisualOptionsBuilder) (c : Nat) :
    ((Builder.build (Builder.transcolor b (some c))).flags.testBit 4 = true) ∧
    ((Builder.build (Builder.transcolor b (some c))).transparentColor = some c) ∧
    ((Builder.build (Builder.transcolor (Builder.transcolor b (some c))
        none)).flags.testBit 4 = false) ∧
    ((Builder.build (Builder.transcolor (Builder.transcolor b (some c))
        none)).transparentColor = none) := by
  have hset : (b.flags ||| NcVisualOptions.ADDALPHA).testBit 4 = true :=
    lor_testBit_true b.flags NcVisualOptions.ADDALPHA 4 (by decide)
  have hclr : (((b.flags ||| NcVisualOptions.ADDALPHA) &&&
      clearMask NcVisualOptions.ADDALPHA)).testBit 4 = false :=
    land_clearMask_testBit_true _ NcVisualOptions.ADDALPHA 4 (by norm_num)
      (by decide)
  refine ⟨?_, ?_, ?_, ?_⟩
  · simpa [Builder.build, Builder.transcolor] using hset
  · have hne : ¬ ((b.flags ||| 16) &&& 16 = 0) := by
      rw [land16_eq_zero_iff]
      have ht : (b.flags ||| 16).testBit 4 = true := by
        simpa [NcVisualOptions.ADDALPHA] using hset
      simp [ht]
    simp [Builder.build, Builder.transcolor, NcVisualOptions.transparentColor,
      NcVisualOptions.ADDALPHA, hne]
  · simpa [Builder.build, Builder.transcolor] using hclr
  · have hz : ((b.flags ||| 16) &&& clearMask 16) &&& 16 = 0 := by
      rw [land16_eq_zero_iff]
      simpa [NcVisualOptions.ADDALPHA] using hclr
    simp [Builder.build, Builder.transcolor, NcVisualOptions.transparentColor,
      NcVisualOptions.ADDALPHA, hz]

theorem testBit_32_of_ne (i : Nat) (h : i ≠ 5) : Nat.testBit 32 i = false := by
  have e : (32 : Nat) = 2 ^ 5 := by norm_num
  rw [e]
  exact Nat.testBit_two_pow_of_ne (fun e5 => h e5.symm)

/-- C8: `parent p` yields exactly the same builder state as `plane p`
followed by `child true`; it records the surface reference, sets the
`CHILDPLANE` flag (bit 5) and has no other effect (all other fields and
flag bits are unchanged). -/
theorem C8_parent_is_plane_child (b : NcVisualOptionsBuilder) (p : Nat) :
    Builder.parent b p = Builder.child (Builder.plane b p) true ∧
    (Builder.parent b p).plane = some p ∧
    ((Builder.parent b p).flags.testBit 5 = true) ∧
    (∀ i, i < 32 → i ≠ 5 →
      (Builder.parent b p).flags.testBit i = b.flags.testBit i) ∧
    (Builder.parent b p).scale = b.scale ∧
    (Builder.parent b p).y = b.y ∧
    (Builder.parent b p).x = b.x ∧
    (Builder.parent b p).region_yx_lenyx = b.region_yx_lenyx ∧
    (Builder.parent b p).cell_offset_yx = b.cell_offset_yx ∧
    (Builder.parent b p).blitter = b.blitter ∧
    (Builder.parent b p).transcolor = b.transcolor := by
  refine ⟨?_, rfl, ?_, fun i _ hne => ?_, rfl, rfl, rfl, rfl, rfl, rfl, rfl⟩
  · simp [Builder.parent, Builder.child, Builder.plane]
  · exact lor_testBit_true b.flags NcVisualOptions.CHILDPLANE 5 (by decide)
  · exact lor_testBit_other b.flags NcVisualOptions.CHILDPLANE i
      (testBit_32_of_ne i hne)

/-- Witness for C8 at the default builder and plane id `7`, instantiating
the frame conjunct at bit `0`. -/
theorem C8_witness :
    (Builder.parent NcVisualOptionsBuilder.default 7).flags.testBit 0 =
      NcVisualOptionsBuilder.default.flags.testBit 0 :=
  (C8_parent_is_plane_child NcVisualOptionsBuilder.default 7).2.2.2.1 0
    (by norm_num) (by norm_num)

/-- C9: `plane` records the surface reference and leaves the flags and
every other field unchanged; `child v` sets or clears only the
`CHILDPLANE` bit (bit 5), leaving the surface reference, every other flag
bit and every other field unchanged; `no_plane` removes the surface
reference and clears the `CHILDPLANE` bit while leaving all other flag bits
and fields unchanged. -/
theorem C9_plane_child_no_plane_frame (b : NcVisualOptionsBuilder) (p : Nat)
    (v : Bool) :
    ((Builder.plane b p).plane = some p ∧
     (Builder.plane b p).flags = b.flags ∧
     (Builder.plane b p).scale = b.scale ∧
     (Builder.plane b p).y = b.y ∧
     (Builder.plane b p).x = b.x ∧
     (Builder.plane b p).region_yx_lenyx = b.region_yx_lenyx ∧
     (Builder.plane b p).cell_offset_yx = b.cell_offset_yx ∧
     (Builder.plane b p).blitter = b.blitter ∧
     (Builder.plane b p).transcolor = b.transcolor) ∧
    (((Builder.child b v).flags.testBit 5 = v) ∧
     (∀ i, i < 32 → i ≠ 5 →
       (Builder.child b v).flags.testBit i = b.flags.testBit i) ∧
     (Builder.child b v).plane = b.plane ∧
     (Builder.child b v).scale = b.scale ∧
     (Builder.child b v).y = b.y ∧
     (Builder.child b v).x = b.x ∧
     (Builder.child b v).region_yx_lenyx = b.region_yx_lenyx ∧
     (Builder.child b v).cell_offset_yx = b.cell_offset_yx ∧
     (Builder.child b v).blitter = b.blitter ∧
     (Builder.child b v).transcolor = b.transcolor) ∧
    ((Builder.no_plane b).plane = none ∧
     ((Builder.no_plane b).flags.testBit 5 = false) ∧
     (∀ i, i < 32 → i ≠ 5 →
       (Builder.no_plane b).flags.testBit i = b.flags.testBit i) ∧
     (Builder.no_plane b).scale = b.scale ∧
     (Builder.no_plane b).y = b.y ∧
     (Builder.no_plane b).x = b.x ∧
     (Builder.no_plane b).region_yx_lenyx = b.region_yx_lenyx ∧
     (Builder.no_plane b).cell_offset_yx = b.cell_offset_yx ∧
     (Builder.no_plane b).blitter = b.blitter ∧
     (Builder.no_plane b).transcolor = b.transcolor) := by
  refine ⟨⟨rfl, rfl, rfl, rfl, rfl, rfl, rfl, rfl, rfl⟩, ⟨?_, fun i hi hne => ?_,
    ?_, ?_, ?_, ?_, ?_, ?_, ?_, ?_⟩, ⟨rfl, ?_, fun i hi hne => ?_,
    rfl, rfl, rfl, rfl, rfl, rfl, rfl⟩⟩
  · cases v
    · simpa [Builder.child] using
        land_clearMask_testBit_true b.flags NcVisualOptions.CHILDPLANE 5
          (by norm_num) (by decide)
    · simpa [Builder.child] using
        lor_testBit_true b.flags NcVisualOptions.CHILDPLANE 5 (by decide)
  · cases v
    · simpa [Builder.child] using
        land_clearMask_testBit_other b.flags NcVisualOptions.CHILDPLANE i hi
          (testBit_32_of_ne i hne)
    · simpa [Builder.child] using
        lor_testBit_other b.flags NcVisualOptions.CHILDPLANE i
          (testBit_32_of_ne i hne)
  · cases v <;> simp [Builder.child]
  · cases v <;> simp [Builder.child]
  · cases v <;> simp [Builder.child]
  · cases v <;> simp [Builder.child]
  · cases v <;> simp [Builder.child]
  · cases v <;> simp [Builder.child]
  · cases v <;> simp [Builder.child]
  · cases v <;> simp [Builder.child]
  · simpa [Builder.no_plane] using
      land_clearMask_testBit_true b.flags NcVisualOptions.CHILDPLANE 5
        (by norm_num) (by decide)
  · simpa [Builder.no_plane] using
      land_clearMask_testBit_other b.flags NcVisualOptions.CHILDPLANE i hi
        (testBit_32_of_ne i hne)

/-- Witness for C9 at the default builder, plane id `7` and `child true`,
instantiating the child frame conjunct at bit `3`. -/
theorem C9_witness :
    (Builder.child NcVisualOptionsBuilder.default true).flags.testBit 3 =
      NcVisualOptionsBuilder.default.flags.testBit 3 :=
  (C9_plane_child_no_plane_frame NcVisualOptionsBuilder.default 7 true).2.1.2.1
    3 (by norm_num) (by norm_num)

theorem lor_lor_self (a f : Nat) : (a ||| f) ||| f = a ||| f := by
  apply Nat.eq_of_testBit_eq
  intro i
  simp [Nat.testBit_lor, Bool.or_assoc]

theorem land_land_self (a m : Nat) : (a &&& m) &&& m = a &&& m := by
  apply Nat.eq_of_testBit_eq
  intro i
  simp [Nat.testBit_land, Bool.and_assoc]

theorem land_pair_idem (a m1 m2 : Nat) :
    (((a &&& m1) &&& m2) &&& m1) &&& m2 = (a &&& m1) &&& m2 := by
  apply Nat.eq_of_testBit_eq
  intro i
  simp only [Nat.testBit_land]
  cases a.testBit i <;> cases m1.testBit i <;> cases m2.testBit i <;> rfl

theorem lor_pair_idem (a f1 f2 : Nat) :
    (((a ||| f1) ||| f2) ||| f1) ||| f2 = (a ||| f1) ||| f2 := by
  apply Nat.eq_of_testBit_eq
  intro i
  simp only [Nat.testBit_lor]
  cases a.testBit i <;> cases f1.testBit i <;> cases f2.testBit i <;> rfl

theorem applyCall_idem (b : NcVisualOptionsBuilder) (c : BCall) :
    applyCall (applyCall b c) c = applyCall b c := by
  cases c
  case plane => simp [applyCall, Builder.plane]
  case child v =>
    cases v <;> simp [applyCall, Builder.child, lor_lor_self, land_land_self]
  case parent => simp [applyCall, Builder.parent, lor_lor_self]
  case no_plane => simp [applyCall, Builder.no_plane, land_land_self]
  case scale => simp [applyCall, Builder.scale]
  case y => simp [applyCall, Builder.y, land_land_self]
  case x => simp [applyCall, Builder.x, land_land_self]
  case yx => simp [applyCall, Builder.yx, land_pair_idem]
  case valign => simp [applyCall, Builder.valign, lor_lor_self]
  case halign => simp [applyCall, Builder.halign, lor_lor_self]
  case align => simp [applyCall, Builder.align, lor_pair_idem]
  case blitter => simp [applyCall, Builder.blitter]
  case pixel => simp [applyCall, Builder.pixel]
  case transcolor co =>
    cases co <;>
      simp [applyCall, Builder.transcolor, lor_lor_self, land_land_self]
  case blend v =>
    cases v <;> simp [applyCall, Builder.blend, lor_lor_self, land_land_self]
  case degrade v =>
    cases v <;> simp [applyCall, Builder.degrade, lor_lor_self, land_land_self]
  case interpolate v =>
    cases v <;>
      simp [applyCall, Builder.interpolate, lor_lor_self, land_land_self]
  case region => simp [applyCall, Builder.region]
  case cell_offset => simp [applyCall, Builder.cell_offset]

/-- C7: every setter is idempotent — applying the same setter twice with
the same argument yields the same builder state, and hence the same built
descriptor, as applying it once. -/
theorem C7_setter_idempotence (b : NcVisualOptionsBuilder) (c : BCall) :
    applyCall (applyCall b c) c = applyCall b c ∧
    Builder.build (applyCall (applyCall b c) c) = Builder.build (applyCall b c) := by
  have h := applyCall_idem b c
  exact ⟨h, by rw [h]⟩

theorem applyCall_vbit (b : NcVisualOptionsBuilder) (c : BCall) :
    (applyCall b c).flags.testBit 3 =
      if isVertCall c then isVertAlign c else b.flags.testBit 3 := by
  cases c
  case plane => simp [applyCall, Builder.plane, isVertCall]
  case child v =>
    cases v
    · simpa [applyCall, Builder.child, isVertCall] using
        land_clearMask_testBit_other b.flags NcVisualOptions.CHILDPLANE 3
          (by norm_num) (by decide)
    · simpa [applyCall, Builder.child, isVertCall] using
        lor_testBit_other b.flags NcVisualOptions.CHILDPLANE 3 (by decide)
  case parent =>
    simpa [applyCall, Builder.parent, isVertCall] using
      lor_testBit_other b.flags NcVisualOptions.CHILDPLANE 3 (by decide)
  case no_plane =>
    simpa [applyCall, Builder.no_plane, isVertCall] using
      land_clearMask_testBit_other b.flags NcVisualOptions.CHILDPLANE 3
        (by norm_num) (by decide)
  case scale => simp [applyCall, Builder.scale, isVertCall]
  case y v =>
    simpa [applyCall, Builder.y, isVertCall, isVertAlign, vertAlignOf] using
      land_clearMask_testBit_true b.flags NcVisualOptions.VERALIGNED 3
        (by norm_num) (by decide)
  case x v =>
    simpa [applyCall, Builder.x, isVertCall] using
      land_clearMask_testBit_other b.flags NcVisualOptions.HORALIGNED 3
        (by norm_num) (by decide)
  case yx vy vx =>
    have h1 := land_clearMask_testBit_other
      (b.flags &&& clearMask NcVisualOptions.VERALIGNED)
      NcVisualOptions.HORALIGNED 3 (by norm_num) (by decide)
    have h2 := land_clearMask_testBit_true b.flags NcVisualOptions.VERALIGNED 3
      (by norm_num) (by decide)
    simp [applyCall, Builder.yx, isVertCall, isVertAlign, vertAlignOf, h1, h2]
  case valign a =>
    simpa [applyCall, Builder.valign, isVertCall, isVertAlign, vertAlignOf] using
      lor_testBit_true b.flags NcVisualOptions.VERALIGNED 3 (by decide)
  case halign a =>
    simpa [applyCall, Builder.halign, isVertCall] using
      lor_testBit_other b.flags NcVisualOptions.HORALIGNED 3 (by decide)
  case align va ha =>
    have h1 := lor_testBit_other (b.flags ||| NcVisualOptions.VERALIGNED)
      NcVisualOptions.HORALIGNED 3 (by decide)
    have h2 := lor_testBit_true b.flags NcVisualOptions.VERALIGNED 3 (by decide)
    simp [applyCall, Builder.align, isVertCall, isVertAlign, vertAlignOf, h1, h2]
  case blitter => simp [applyCall, Builder.blitter, isVertCall]
  case pixel => simp [applyCall, Builder.pixel, isVertCall]
  case transcolor co =>
    cases co
    · simpa [applyCall, Builder.transcolor, isVertCall] using
        land_clearMask_testBit_other b.flags NcVisualOptions.ADDALPHA 3
          (by norm_num) (by decide)
    · simpa [applyCall, Builder.transcolor, isVertCall] using
        lor_testBit_other b.flags NcVisualOptions.ADDALPHA 3 (by decide)
  case blend v =>
    cases v
    · simpa [applyCall, Builder.blend, isVertCall] using
        land_clearMask_testBit_other b.flags NcVisualOptions.BLEND 3
          (by norm_num) (by decide)
    · simpa [applyCall, Builder.blend, isVertCall] using
        lor_testBit_other b.flags NcVisualOptions.BLEND 3 (by decide)
  case degrade v =>
    cases v
    · simpa [applyCall, Builder.degrade, isVertCall] using
        lor_testBit_other b.flags NcVisualOptions.NODEGRADE 3 (by decide)
    · simpa [applyCall, Builder.degrade, isVertCall] using
        land_clearMask_testBit_other b.flags NcVisualOptions.NODEGRADE 3
          (by norm_num) (by decide)
  case interpolate v =>
    cases v
    · simpa [applyCall, Builder.interpolate, isVertCall] using
        lor_testBit_other b.flags NcVisualOptions.NOINTERPOLATE 3 (by decide)
    · simpa [applyCall, Builder.interpolate, isVertCall] using
        land_clearMask_testBit_other b.flags NcVisualOptions.NOINTERPOLATE 3
          (by norm_num) (by decide)
  case region => simp [applyCall, Builder.region, isVertCall]
  case cell_offset => simp [applyCall, Builder.cell_offset, isVertCall]

theorem applyCall_hbit (b : NcVisualOptionsBuilder) (c : BCall) :
    (applyCall b c).flags.testBit 2 =
      if isHorCall c then isHorAlign c else b.flags.testBit 2 := by
  cases c
  case plane => simp [applyCall, Builder.plane, isHorCall]
  case child v =>
    cases v
    · simpa [applyCall, Builder.child, isHorCall] using
        land_clearMask_testBit_other b.flags NcVisualOptions.CHILDPLANE 2
          (by norm_num) (by decide)
    · simpa [applyCall, Builder.child, isHorCall] using
        lor_testBit_other b.flags NcVisualOptions.CHILDPLANE 2 (by decide)
  case parent =>
    simpa [applyCall, Builder.parent, isHorCall] using
      lor_testBit_other b.flags NcVisualOptions.CHILDPLANE 2 (by decide)
  case no_plane =>
    simpa [applyCall, Builder.no_plane, isHorCall] using
      land_clearMask_testBit_other b.flags NcVisualOptions.CHILDPLANE 2
        (by norm_num) (by decide)
  case scale => simp [applyCall, Builder.scale, isHorCall]
  case y v =>
    simpa [applyCall, Builder.y, isHorCall] using
      land_clearMask_testBit_other b.flags NcVisualOptions.VERALIGNED 2
        (by norm_num) (by decide)
  case x v =>
    simpa [applyCall, Builder.x, isHorCall, isHorAlign, horAlignOf] using
      land_clearMask_testBit_true b.flags NcVisualOptions.HORALIGNED 2
        (by norm_num) (by decide)
  case yx vy vx =>
    have h1 := land_clearMask_testBit_true
      (b.flags &&& clearMask NcVisualOptions.VERALIGNED)
      NcVisualOptions.HORALIGNED 2 (by norm_num) (by decide)
    simp [applyCall, Builder.yx, isHorCall, isHorAlign, horAlignOf, h1]
  case valign a =>
    simpa [applyCall, Builder.valign, isHorCall] using
      lor_testBit_other b.flags NcVisualOptions.VERALIGNED 2 (by decide)
  case halign a =>
    simpa [applyCall, Builder.halign, isHorCall, isHorAlign, horAlignOf] using
      lor_testBit_true b.flags NcVisualOptions.HORALIGNED 2 (by decide)
  case align va ha =>
    have h1 := lor_testBit_true (b.flags ||| NcVisualOptions.VERALIGNED)
      NcVisualOptions.HORALIGNED 2 (by decide)
    simp [applyCall, Builder.align, isHorCall, isHorAlign, horAlignOf, h1]
  case blitter => simp [applyCall, Builder.blitter, isHorCall]
  case pixel => simp [applyCall, Builder.pixel, isHorCall]
  case transcolor co =>
    cases co
    · simpa [applyCall, Builder.transcolor, isHorCall] using
        land_clearMask_testBit_other b.flags NcVisualOptions.ADDALPHA 2
          (by norm_num) (by decide)
    · simpa [applyCall, Builder.transcolor, isHorCall] using
        lor_testBit_other b.flags NcVisualOptions.ADDALPHA 2 (by decide)
  case blend v =>
    cases v
    · simpa [applyCall, Builder.blend, isHorCall] using
        land_clearMask_testBit_other b.flags NcVisualOptions.BLEND 2
          (by norm_num) (by decide)
    · simpa [applyCall, Builder.blend, isHorCall] using
        lor_testBit_other b.flags NcVisualOptions.BLEND 2 (by decide)
  case degrade v =>
    cases v
    · simpa [applyCall, Builder.degrade, isHorCall] using
        lor_testBit_other b.flags NcVisualOptions.NODEGRADE 2 (by decide)
    · simpa [applyCall, Builder.degrade, isHorCall] using
        land_clearMask_testBit_other b.flags NcVisualOptions.NODEGRADE 2
          (by norm_num) (by decide)
  case interpolate v =>
    cases v
    · simpa [applyCall, Builder.interpolate, isHorCall] using
        lor_testBit_other b.flags NcVisualOptions.NOINTERPOLATE 2 (by decide)
    · simpa [applyCall, Builder.interpolate, isHorCall] using
        land_clearMask_testBit_other b.flags NcVisualOptions.NOINTERPOLATE 2
          (by norm_num) (by decide)
  case region => simp [applyCall, Builder.region, isHorCall]
  case cell_offset => simp [applyCall, Builder.cell_offset, isHorCall]

theorem applyCall_y_frame (b : NcVisualOptionsBuilder) (c : BCall)
    (h : isVertCall c = false) : (applyCall b c).y = b.y := by
  cases c <;> simp_all [applyCall, isVertCall, Builder.plane, Builder.child,
    Builder.parent, Builder.no_plane, Builder.scale, Builder.x,
    Builder.halign, Builder.blitter, Builder.pixel, Builder.transcolor,
    Builder.blend, Builder.degrade, Builder.interpolate, Builder.region,
    Builder.cell_offset, apply_ite]
  case transcolor co => cases co <;> simp [Builder.transcolor]

theorem applyCall_x_frame (b : NcVisualOptionsBuilder) (c : BCall)
    (h : isHorCall c = false) : (applyCall b c).x = b.x := by
  cases c <;> simp_all [applyCall, isHorCall, Builder.plane, Builder.child,
    Builder.parent, Builder.no_plane, Builder.scale, Builder.y,
    Builder.valign, Builder.blitter, Builder.pixel, Builder.transcolor,
    Builder.blend, Builder.degrade, Builder.interpolate, Builder.region,
    Builder.cell_offset, apply_ite]
  case transcolor co => cases co <;> simp [Builder.transcolor]

theorem applyCall_y_align (b : NcVisualOptionsBuilder) (c : BCall) (a : Nat)
    (h : vertAlignOf c = some a) : (applyCall b c).y = u32_as_i32 a := by
  cases c <;> simp_all [applyCall, vertAlignOf, Builder.valign, Builder.align]

theorem applyCall_x_align (b : NcVisualOptionsBuilder) (c : BCall) (a : Nat)
    (h : horAlignOf c = some a) : (applyCall b c).x = u32_as_i32 a := by
  cases c <;> simp_all [applyCall, horAlignOf, Builder.halign, Builder.align]

theorem lastVert_concat (cs : List BCall) (c : BCall) :
    lastVert (cs ++ [c]) = if isVertCall c then some c else lastVert cs := by
  cases hc : isVertCall c <;> simp [lastVert, List.find?_cons, hc]

theorem lastHor_concat (cs : List BCall) (c : BCall) :
    lastHor (cs ++ [c]) = if isHorCall c then some c else lastHor cs := by
  cases hc : isHorCall c <;> simp [lastHor, List.find?_cons, hc]

/-- C2: for every finite sequence of builder setter calls starting from the
default builder, the `VERALIGNED` flag (bit 3) is set iff the most recent
vertical-axis-affecting call was `valign` or `align` (not `y` or `yx`), in
which case the stored vertical slot encodes that alignment mode;
symmetrically for `HORALIGNED` (bit 2) and the horizontal axis, so the
flag and the placement interpretation never disagree. -/
theorem C2_flag_placement_coupling (cs : List BCall) :
    ((buildSeq cs).flags.testBit 3 = (lastVert cs).any isVertAlign) ∧
    ((buildSeq cs).flags.testBit 2 = (lastHor cs).any isHorAlign) ∧
    (∀ a, (lastVert cs).bind vertAlignOf = some a →
      (buildSeq cs).y = u32_as_i32 a) ∧
    (∀ a, (lastHor cs).bind horAlignOf = some a →
      (buildSeq cs).x = u32_as_i32 a) := by
  induction cs using List.reverseRecOn with
  | nil =>
    refine ⟨?_, ?_, ?_, ?_⟩ <;>
      simp [buildSeq, lastVert, lastHor, NcVisualOptionsBuilder.default]
  | append_singleton cs c ih =>
    obtain ⟨ih3, ih2, ihy, ihx⟩ := ih
    have hb : buildSeq (cs ++ [c]) = applyCall (buildSeq cs) c := by
      simp [buildSeq]
    refine ⟨?_, ?_, ?_, ?_⟩
    · rw [hb, applyCall_vbit, lastVert_concat]
      cases hc : isVertCall c
      · simp [ih3]
      · simp
    · rw [hb, applyCall_hbit, lastHor_concat]
      cases hc : isHorCall c
      · simp [ih2]
      · simp
    · intro a haa
      rw [lastVert_concat] at haa
      rw [hb]
      cases hc : isVertCall c
      · rw [hc] at haa
        simp only [if_false, Bool.false_eq_true] at haa
        rw [applyCall_y_frame _ c hc]
        exact ihy a haa
      · rw [hc] at haa
        simp only [if_true] at haa
        exact applyCall_y_align _ c a (by simpa using haa)
    · intro a haa
      rw [lastHor_concat] at haa
      rw [hb]
      cases hc : isHorCall c
      · rw [hc] at haa
        simp only [if_false, Bool.false_eq_true] at haa
        rw [applyCall_x_frame _ c hc]
        exact ihx a haa
      · rw [hc] at haa
        simp only [if_true] at haa
        exact applyCall_x_align _ c a (by simpa using haa)

/-- Witness for C2 on the sequence `y 3` then `valign 1` (the
top/left-anchored mode value): the vertical slot of the resulting builder
encodes the alignment mode. -/
theorem C2_witness :
    (buildSeq [BCall.y 3, BCall.valign 1]).y = u32_as_i32 1 :=
  (C2_flag_placement_coupling [BCall.y 3, BCall.valign 1]).2.2.1 1 (by decide)

/-- C5: the non-blocking retrieval invokes the wait primitive with a
zero-duration timeout and a completely filled signal mask (every mask word
all-ones, i.e. all signals blocked), and when the primitive reports no
pending event (raw value `0`) it returns the `'\0'` sentinel; the blocking
variant invokes the primitive with no timeout (`none`, an unbounded wait)
and an empty signal mask (every word zero, no signals blocked). -/
theorem C5_getc_variants (getc : GetcArgs → Nat) :
    notcurses_getc_nblock getc =
      char_from_u32_unchecked (getc ⟨some ⟨0, 0⟩, sigfillset_mask⟩) ∧
    (∀ w ∈ sigfillset_mask, w = 2 ^ 64 - 1) ∧
    (getc ⟨some ⟨0, 0⟩, sigfillset_mask⟩ = 0 →
      notcurses_getc_nblock getc = some (Char.ofNat 0)) ∧
    notcurses_getc_nblocking getc =
      char_from_u32_unchecked (getc ⟨none, sigemptyset_mask⟩) ∧
    (∀ w ∈ sigemptyset_mask, w = 0) := by
  refine ⟨rfl, ?_, ?_, rfl, ?_⟩
  · intro w hw
    simp [sigfillset_mask, List.mem_replicate] at hw
    simpa using hw
  · intro h0
    have hv : Nat.isValidChar 0 := by decide
    simp [notcurses_getc_nblock, h0, char_from_u32_unchecked, hv]
  · intro w hw
    simp [sigemptyset_mask, List.mem_replicate] at hw
    exact hw

/-- Witness for C5 with a primitive that reports no pending event: the
non-blocking variant returns the `'\0'` sentinel. -/
theorem C5_witness :
    notcurses_getc_nblock (fun _ => 0) = some (Char.ofNat 0) :=
  (C5_getc_variants (fun _ => 0)).2.2.1 rfl

/-- C6: under the precondition that the underlying event source only
yields valid Unicode scalar values, the unchecked decode step of both
input-retrieval variants never takes its undefined-behaviour branch: both
return `some` character. -/
theorem C6_decode_never_fails (getc : GetcArgs → Nat)
    (h : ∀ args, (getc args).isValidChar) :
    (notcurses_getc_nblock getc).isSome = true ∧
    (notcurses_getc_nblocking getc).isSome = true := by
  constructor <;>
    simp [notcurses_getc_nblock, notcurses_getc_nblocking,
      char_from_u32_unchecked, h _]

/-- Witness for C6 with a primitive that always returns the valid code
point `65`. -/
theorem C6_witness :
    (notcurses_getc_nblock (fun _ => 65)).isSome = true :=
  (C6_decode_never_fails (fun _ => 65) (fun _ => show (65 : Nat).isValidChar by decide)).1
